import Mathlib

/-
Verification of the vibrio-python lifecycle manager and typed client.

Shallow embedding of `vibrio/types.py` and `vibrio/lazer.py`:
pure helpers become Lean functions, the mutable `Lazer` object becomes an
explicit state record with step functions returning the post-state, an
outcome (normal return / raised exception / non-terminating readiness
loop), and a trace of the externally visible actions (process signals,
session closure, log output, HTTP requests).  Python exceptions are
modelled by the `Outcome`/`Except` error cases; Python floats ride along
as opaque `Float` payloads (no arithmetic is performed on them).
-/

namespace Vibrio

/-! ## types.py: OsuMod -/

/-- Embeds `OsuMod(Enum)` from `vibrio/types.py`: fifteen mod acronyms. -/
inductive OsuMod where
  | NO_FAIL
  | EASY
  | TOUCH_DEVICE
  | HIDDEN
  | HARD_ROCK
  | SUDDEN_DEATH
  | DOUBLE_TIME
  | RELAX
  | HALF_TIME
  | NIGHTCORE
  | FLASHLIGHT
  | AUTOPLAY
  | SPUN_OUT
  | AUTOPILOT
  | PERFECT
  deriving DecidableEq

/-- The `.value` of each enum member (the acronym string). -/
def OsuMod.value : OsuMod → String
  | .NO_FAIL => "NF"
  | .EASY => "EZ"
  | .TOUCH_DEVICE => "TD"
  | .HIDDEN => "HD"
  | .HARD_ROCK => "HR"
  | .SUDDEN_DEATH => "SD"
  | .DOUBLE_TIME => "DT"
  | .RELAX => "RX"
  | .HALF_TIME => "HT"
  | .NIGHTCORE => "NC"
  | .FLASHLIGHT => "FL"
  | .AUTOPLAY => "AT"
  | .SPUN_OUT => "SO"
  | .AUTOPILOT => "AP"
  | .PERFECT => "PF"

/-! ## types.py: serializable dataclasses and wire dictionaries -/

/-- A value stored in a serialized dictionary or query-parameter dict:
Python ints, floats, lists of strings (the acronym lists built by the
live `[mod.value for mod in mods]` comprehensions in `lazer.py`), or a
raw `list[OsuMod]` of enum members.  The raw variant is what
`SerializableDataclass.to_dict` actually emits for a `list[OsuMod]`
field: the `_factory` guard `type(v) is list[OsuMod]` compares the plain
`list` type against a PEP-585 generic alias and is always `False` in
CPython, so `asdict` deep-copies the enum members unchanged. -/
inductive WireValue where
  | int (n : Int)
  | float (x : Float)
  | strs (l : List String)
  | modList (l : List OsuMod)

/-- A Python `dict[str, Any]` as an association list (insertion order). -/
abbrev Dict := List (String × WireValue)

/-- Embeds `key.replace("_", "")`: drops every underscore. -/
def removeUnderscores (s : String) : String :=
  String.mk (s.data.filter (fun c => !(c = '_')))

/-- Embeds `str.lower()` character-wise (the keys involved are ASCII). -/
def lowerString (s : String) : String :=
  String.mk (s.data.map Char.toLower)

/-- Embeds `{k.lower(): v for k, v in data.items()}` (key lowering; the
later-entry-wins semantics of the dict comprehension is in `dictGet`). -/
def lowerKeys (d : Dict) : Dict :=
  d.map (fun p => (lowerString p.1, p.2))

/-- Python dict lookup where a later binding of the same key shadows an
earlier one (as when a dict is built from a sequence of items). -/
def dictGet : Dict → String → Option WireValue
  | [], _ => none
  | (k, v) :: rest, key =>
    match dictGet rest key with
    | some v2 => some v2
    | none => if k = key then some v else none

/-- Embeds the field fetch in `SerializableDataclass.from_dict`:
`data_lowercase[field.name.replace("_", "")]`, `none` for `KeyError`. -/
def fieldValue (data : Dict) (fieldName : String) : Option WireValue :=
  dictGet (lowerKeys data) (removeUnderscores fieldName)

/-- Embeds `HitStatistics` from `vibrio/types.py`. -/
structure HitStatistics where
  count_300 : Int
  count_100 : Int
  count_50 : Int
  count_miss : Int
  combo : Int
  deriving DecidableEq

/-- `HitStatistics.to_dict`: `asdict` with the `_factory` key transform
(field names with underscores removed, field order preserved). -/
def HitStatistics.to_dict (h : HitStatistics) : Dict :=
  [ (removeUnderscores "count_300", .int h.count_300),
    (removeUnderscores "count_100", .int h.count_100),
    (removeUnderscores "count_50", .int h.count_50),
    (removeUnderscores "count_miss", .int h.count_miss),
    (removeUnderscores "combo", .int h.combo) ]

/-- `HitStatistics.from_dict`: the generic `from_dict` loop unrolled over
the five fields of `HitStatistics`. -/
def HitStatistics.from_dict (data : Dict) : Option HitStatistics :=
  match fieldValue data "count_300", fieldValue data "count_100",
      fieldValue data "count_50", fieldValue data "count_miss",
      fieldValue data "combo" with
  | some (.int a), some (.int b), some (.int c), some (.int d),
      some (.int e) => some ⟨a, b, c, d, e⟩
  | _, _, _, _, _ => none

/-- Embeds `OsuDifficultyAttributes` from `vibrio/types.py`. -/
structure OsuDifficultyAttributes where
  mods : List OsuMod
  star_rating : Float
  max_combo : Int
  aim_difficulty : Float
  speed_difficulty : Float
  speed_note_count : Float
  flashlight_difficulty : Float
  slider_factor : Float
  approach_rate : Float
  overall_difficulty : Float
  drain_rate : Float
  hit_circle_count : Int
  slider_count : Int
  spinner_count : Int

/-- `OsuDifficultyAttributes.to_dict`: keys lose their underscores; the
`mods` value is the enum list itself, unconverted, because the
`_factory` branch `if type(v) is list[OsuMod]` never fires in CPython
(`type(v)` is the plain `list` type, never the generic alias), so the
acronym conversion there is dead code. -/
def OsuDifficultyAttributes.to_dict (x : OsuDifficultyAttributes) : Dict :=
  [ (removeUnderscores "mods", .modList x.mods),
    (removeUnderscores "star_rating", .float x.star_rating),
    (removeUnderscores "max_combo", .int x.max_combo),
    (removeUnderscores "aim_difficulty", .float x.aim_difficulty),
    (removeUnderscores "speed_difficulty", .float x.speed_difficulty),
    (removeUnderscores "speed_note_count", .float x.speed_note_count),
    (removeUnderscores "flashlight_difficulty", .float x.flashlight_difficulty),
    (removeUnderscores "slider_factor", .float x.slider_factor),
    (removeUnderscores "approach_rate", .float x.approach_rate),
    (removeUnderscores "overall_difficulty", .float x.overall_difficulty),
    (removeUnderscores "drain_rate", .float x.drain_rate),
    (removeUnderscores "hit_circle_count", .int x.hit_circle_count),
    (removeUnderscores "slider_count", .int x.slider_count),
    (removeUnderscores "spinner_count", .int x.spinner_count) ]

/-- `OsuDifficultyAttributes.from_dict`: the generic loop unrolled over
the fourteen fields.  The `mods` value is stored unconverted: the guard
`if field.type is list[OsuMod]` compares two distinct PEP-585
`GenericAlias` objects by identity and is always `False` in CPython, so
the `OsuMod(acronym)` re-parse is dead code — the field value passes
through verbatim (the pattern match on `.modList` is only the
well-formedness Lean needs to type the constructed record). -/
def OsuDifficultyAttributes.from_dict (data : Dict) :
    Option OsuDifficultyAttributes :=
  match fieldValue data "mods", fieldValue data "star_rating",
      fieldValue data "max_combo", fieldValue data "aim_difficulty",
      fieldValue data "speed_difficulty", fieldValue data "speed_note_count",
      fieldValue data "flashlight_difficulty", fieldValue data "slider_factor",
      fieldValue data "approach_rate", fieldValue data "overall_difficulty",
      fieldValue data "drain_rate", fieldValue data "hit_circle_count",
      fieldValue data "slider_count", fieldValue data "spinner_count" with
  | some (.modList ms), some (.float sr), some (.int mc), some (.float aim),
      some (.float spd), some (.float snc), some (.float fl),
      some (.float sf), some (.float ar), some (.float od),
      some (.float dr), some (.int hc), some (.int sc), some (.int spc) =>
    some ⟨ms, sr, mc, aim, spd, snc, fl, sf, ar, od, dr, hc, sc, spc⟩
  | _, _, _, _, _, _, _, _, _, _, _, _, _, _ => none

/-- Embeds `OsuPerformanceAttributes` from `vibrio/types.py`. -/
structure OsuPerformanceAttributes where
  total : Float
  aim : Float
  speed : Float
  accuracy : Float
  flashlight : Float
  effective_miss_count : Float

/-- `OsuPerformanceAttributes.to_dict`. -/
def OsuPerformanceAttributes.to_dict (x : OsuPerformanceAttributes) : Dict :=
  [ (removeUnderscores "total", .float x.total),
    (removeUnderscores "aim", .float x.aim),
    (removeUnderscores "speed", .float x.speed),
    (removeUnderscores "accuracy", .float x.accuracy),
    (removeUnderscores "flashlight", .float x.flashlight),
    (removeUnderscores "effective_miss_count", .float x.effective_miss_count) ]

/-- `OsuPerformanceAttributes.from_dict`. -/
def OsuPerformanceAttributes.from_dict (data : Dict) :
    Option OsuPerformanceAttributes :=
  match fieldValue data "total", fieldValue data "aim",
      fieldValue data "speed", fieldValue data "accuracy",
      fieldValue data "flashlight", fieldValue data "effective_miss_count" with
  | some (.float a), some (.float b), some (.float c), some (.float d),
      some (.float e), some (.float f) => some ⟨a, b, c, d, e, f⟩
  | _, _, _, _, _, _ => none

/-! ## HTTP request model for the façade's API operations -/

/-- HTTP verbs used by the client. -/
inductive Method where
  | GET
  | POST
  | DELETE
  deriving DecidableEq

/-- A request as issued on the session: verb, relative path, query
parameters (`params=`), and the names of attached file parts (`files=`;
for `LazerAsync` the same parts are passed as form `data=`). -/
structure HttpRequest where
  method : Method
  path : String
  query : Dict
  files : List String

/-- Python exceptions distinguished by the claims. -/
inductive PyError where
  | serverStateError
  | valueError
  | spawnError
  deriving DecidableEq

/-- The `params` dict built at the top of `calculate_difficulty`:
empty, plus the serialized mod list when `mods` is given. -/
def modsParams (mods : Option (List OsuMod)) : Dict :=
  match mods with
  | some ms => [("mods", .strs (ms.map OsuMod.value))]
  | none => []

/-- The dispatch of `Lazer.calculate_difficulty` (lines 278-308 of
`vibrio/lazer.py`; `LazerAsync.calculate_difficulty` has the identical
branch structure): validates the exactly-one-of rule on
`beatmap_id`/`beatmap` and produces the request to issue, or the
`ValueError` raised before any request.  The opaque `beatmap` stream is an
identifier. -/
def calculate_difficulty_request (beatmap_id : Option Int)
    (beatmap : Option Nat) (mods : Option (List OsuMod)) :
    Except PyError HttpRequest :=
  let params := modsParams mods
  match beatmap_id with
  | some id =>
    match beatmap with
    | some _ => .error .valueError
    | none => .ok ⟨.GET, "/api/difficulty/" ++ toString id, params, []⟩
  | none =>
    match beatmap with
    | some _ => .ok ⟨.POST, "/api/difficulty", params, ["beatmap"]⟩
    | none => .error .valueError

/-- The requests `calculate_difficulty` actually puts on the session:
one for a successful dispatch, none when validation raises. -/
def diffIssuedRequests (beatmap_id : Option Int) (beatmap : Option Nat)
    (mods : Option (List OsuMod)) : List HttpRequest :=
  match calculate_difficulty_request beatmap_id beatmap mods with
  | .ok r => [r]
  | .error _ => []

/-- The keyword arguments of `calculate_performance`.  Opaque binary
streams (`beatmap`, `replay`) are identifiers. -/
structure PerfArgs where
  beatmap_id : Option Int
  beatmap : Option Nat
  mods : Option (List OsuMod)
  difficulty : Option OsuDifficultyAttributes
  hit_stats : Option HitStatistics
  replay : Option Nat

/-- The dispatch of `Lazer.calculate_performance` (lines 310-364 of
`vibrio/lazer.py`; `LazerAsync.calculate_performance`, lines 527-581, has
the identical branch structure): mirrors the nested `if`/`elif` chain,
checking `beatmap_id` first, then `beatmap`, then `difficulty` together
with `hit_stats`, and raising `ValueError` only when a chain falls
through with no matching branch. -/
def calculate_performance_request (a : PerfArgs) : Except PyError HttpRequest :=
  match a.beatmap_id with
  | some id =>
    match a.hit_stats with
    | some hs =>
      let params := hs.to_dict
      let params := params ++ modsParams a.mods
      .ok ⟨.GET, "/api/performance/" ++ toString id, params, []⟩
    | none =>
      match a.replay with
      | some _ =>
        .ok ⟨.POST, "/api/performance/replay/" ++ toString id, [], ["replay"]⟩
      | none => .error .valueError
  | none =>
    match a.beatmap with
    | some _ =>
      match a.hit_stats with
      | some hs =>
        let params := hs.to_dict
        let params := params ++ modsParams a.mods
        .ok ⟨.POST, "/api/performance", params, ["beatmap"]⟩
      | none =>
        match a.replay with
        | some _ =>
          .ok ⟨.POST, "/api/performance/replay", [], ["beatmap", "replay"]⟩
        | none => .error .valueError
    | none =>
      match a.difficulty, a.hit_stats with
      | some d, some hs =>
        .ok ⟨.GET, "/api/performance", d.to_dict ++ hs.to_dict, []⟩
      | _, _ => .error .valueError

/-- The requests `calculate_performance` actually puts on the session. -/
def perfIssuedRequests (a : PerfArgs) : List HttpRequest :=
  match calculate_performance_request a with
  | .ok r => [r]
  | .error _ => []

/-- The fall-through condition of the dispatch chain: exactly the argument
combinations on which the code raises `ValueError`. -/
def perfFallThrough (a : PerfArgs) : Prop :=
  (a.beatmap_id.isSome ∧ a.hit_stats = none ∧ a.replay = none) ∨
  (a.beatmap_id = none ∧ a.beatmap.isSome ∧ a.hit_stats = none ∧
    a.replay = none) ∨
  (a.beatmap_id = none ∧ a.beatmap = none ∧
    ¬(a.difficulty.isSome ∧ a.hit_stats.isSome))

/-- The hit-statistics fixture from `vibrio/tests/test_lazer.py`. -/
def testHitStats : HitStatistics :=
  ⟨2019, 104, 0, 3, 3141⟩

/-- An over-specified call to `calculate_performance`: `beatmap_id` and
`beatmap` both supplied, `hit_stats` and `replay` both supplied.  This
keyword combination is none of the five rows of the decision table. -/
def overspecArgs : PerfArgs :=
  ⟨some 1, some 0, none, none, some testHitStats, some 0⟩

/-! ## lazer.py: executable locator -/

/-- Embeds `get_vibrio_path` (identical in `vibrio/lazer.py` lines 54-61
and `vibrio/server.py` lines 20-27) as the path's segments below the
package directory: `PACKAGE_DIR / "lib" / f"Vibrio{suffix}"` where the
suffix is `".exe"` on Windows and empty on every other platform.  The
function takes no architecture argument and has no failure case. -/
def get_vibrio_path (platform : String) : List String :=
  let suffix := if platform = "Windows" then ".exe" else ""
  ["PACKAGE_DIR", "lib", "Vibrio" ++ suffix]

/-! ## lazer.py: readiness probe -/

/-- `LazerBase.STARTUP_DELAY = 0.05` seconds, in milliseconds. -/
def STARTUP_DELAY_MS : Nat := 50

/-- One observation of `session.get("/api/status")` inside the startup
loop: either a connection/IO error (caught by the `except` clause) or an
HTTP response with the given status code. -/
inductive ProbeResponse where
  | connError
  | status (code : Nat)
  deriving DecidableEq

/-- The readiness loop of `Lazer.start` (lines 196-205; the async variant
is identical): given the sequence of probe outcomes the environment will
produce, returns `some (n, t)` when the loop breaks at the `n`-th attempt
(0-based) having slept `t` ms in the `finally` clauses, and `none` when
the sequence is exhausted without a 200 (the loop is still running). -/
def pollStatus : List ProbeResponse → Option (Nat × Nat)
  | [] => none
  | r :: rest =>
    if r = ProbeResponse.status 200 then some (0, STARTUP_DELAY_MS)
    else
      match pollStatus rest with
      | some p => some (p.1 + 1, p.2 + STARTUP_DELAY_MS)
      | none => none

/-! ## lazer.py: façade lifecycle state machine -/

/-- The mutable state of a `Lazer` façade instance: the immutable port,
the `running` flag set by `LazerBase._start`/`Lazer.stop`, the
subprocess handle `_process` and the HTTP session `_session` (which
stores its base URL).  The log pipes are omitted: no claim observes
them. -/
structure LazerState where
  port : Nat
  running : Bool
  process : Option Nat
  session : Option String
  deriving DecidableEq

/-- A freshly constructed façade: `running = False`, no process, no
session. -/
def initState (port : Nat) : LazerState :=
  ⟨port, false, none, none⟩

/-- `LazerBase.address`. -/
def LazerState.address (s : LazerState) : String :=
  "http://localhost:" ++ toString s.port

/-- Outcome of one public lifecycle call: normal return, a raised
exception, or (for `start`) a readiness loop that never breaks. -/
inductive Outcome where
  | ok
  | error (e : PyError)
  | hung
  deriving DecidableEq

/-- Post-state and outcome of a lifecycle call.  On an exception the
state is the object's (partially mutated) state at the raise site. -/
structure StepResult where
  outcome : Outcome
  state : LazerState
  deriving DecidableEq

/-- Externally visible side effects of a lifecycle call. -/
inductive Action where
  | spawnProcess
  | terminateTree (pid : Nat)
  | waitProcess (pid : Nat)
  | logUncleanShutdown
  | closeSession
  deriving DecidableEq

/-- Whether `subprocess.Popen` succeeds (yielding a handle) or raises. -/
inductive SpawnResult where
  | ok (pid : Nat)
  | fail
  deriving DecidableEq

/-- The environment a `start` call runs against: the spawn outcome and
the probe responses the status endpoint will produce. -/
structure StartEnv where
  spawn : SpawnResult
  probe : List ProbeResponse
  deriving DecidableEq

/-- `Lazer.start` (lines 184-207, with `LazerBase._start` lines 119-127
inlined; `LazerAsync.start` is structurally identical): raises
`ServerStateError` before any mutation or side effect when already
running; otherwise sets `running`, spawns the process, creates the
session, and blocks in the readiness loop until a 200 is observed. -/
def Lazer.start (env : StartEnv) (s : LazerState) : StepResult × List Action :=
  if s.running then (⟨.error .serverStateError, s⟩, [])
  else
    let s1 : LazerState := { s with running := true }
    match env.spawn with
    | .fail => (⟨.error .spawnError, s1⟩, [.spawnProcess])
    | .ok pid =>
      let s2 : LazerState := { s1 with process := some pid }
      let s3 : LazerState := { s2 with session := some s2.address }
      match pollStatus env.probe with
      | some _ => (⟨.ok, s3⟩, [.spawnProcess])
      | none => (⟨.hung, s3⟩, [.spawnProcess])

/-- `signal.SIGTERM` on the platforms the package targets. -/
def SIGTERM : Int := 15

/-- `Lazer.stop` (lines 209-231; `LazerAsync.stop`, lines 423-445, is
structurally identical): a no-op when not running; otherwise terminates
the process tree, waits for the exit status, clears the handle, logs when
the status is neither 0 nor `SIGTERM`, closes and clears the session, and
finally clears `running`.  The property accesses `self.process` /
`self.session` raise `ServerStateError` if the respective field is
`None`. -/
def Lazer.stop (exitStatus : Int) (s : LazerState) : StepResult × List Action :=
  if s.running then
    match s.process with
    | none => (⟨.error .serverStateError, s⟩, [])
    | some pid =>
      let acts := [Action.terminateTree pid, Action.waitProcess pid]
      let s1 : LazerState := { s with process := none }
      let acts := if exitStatus ≠ 0 ∧ exitStatus ≠ SIGTERM then
          acts ++ [Action.logUncleanShutdown]
        else acts
      match s1.session with
      | none => (⟨.error .serverStateError, s1⟩, acts)
      | some _ =>
        (⟨.ok, { s1 with session := none, running := false }⟩,
          acts ++ [Action.closeSession])
  else (⟨.ok, s⟩, [])

/-- The `processHandle`-vs-`running` invariant claimed in the spec's data
model for `ManagedServer`. -/
def processInvariant (s : LazerState) : Prop :=
  s.process.isSome = s.running

/-- States reachable through any sequence of `start`/`stop` calls,
including calls that terminate by raising (the post-state at the raise
site is reachable: the caller observes it). -/
inductive Reachable : LazerState → Prop
  | init (port : Nat) : Reachable (initState port)
  | start (env : StartEnv) (s : LazerState) :
      Reachable s → Reachable (Lazer.start env s).1.state
  | stop (status : Int) (s : LazerState) :
      Reachable s → Reachable (Lazer.stop status s).1.state

/-- States reachable through `start`/`stop` calls that all completed
normally (outcome `ok`). -/
inductive ReachableOk : LazerState → Prop
  | init (port : Nat) : ReachableOk (initState port)
  | start (env : StartEnv) (s : LazerState) :
      ReachableOk s → (Lazer.start env s).1.outcome = .ok →
      ReachableOk (Lazer.start env s).1.state
  | stop (status : Int) (s : LazerState) :
      ReachableOk s → (Lazer.stop status s).1.outcome = .ok →
      ReachableOk (Lazer.stop status s).1.state

/-! ## lazer.py: API operations against the session -/

/-- One public API operation of the façade together with its arguments. -/
inductive ApiOp where
  | hasBeatmap (id : Int)
  | getBeatmap (id : Int)
  | clearCache
  | calculateDifficulty (beatmap_id : Option Int) (beatmap : Option Nat)
      (mods : Option (List OsuMod))
  | calculatePerformance (a : PerfArgs)

/-- The request each operation issues on the session, or the
`ValueError` its argument validation raises before touching the
session. -/
def sessionRequest : ApiOp → Except PyError HttpRequest
  | .hasBeatmap id =>
    .ok ⟨.GET, "/api/beatmaps/" ++ toString id ++ "/status", [], []⟩
  | .getBeatmap id => .ok ⟨.GET, "/api/beatmaps/" ++ toString id, [], []⟩
  | .clearCache => .ok ⟨.DELETE, "/api/beatmaps/cache", [], []⟩
  | .calculateDifficulty bid bm mods => calculate_difficulty_request bid bm mods
  | .calculatePerformance a => calculate_performance_request a

/-- Invoking an API operation on a façade in state `s`: argument
validation that fails does so before the session is touched; otherwise
the `session` property raises `ServerStateError` when `_session is None`,
and only with a live session is the request issued.  The second component
is the list of HTTP requests actually put on the session. -/
def Lazer.invokeApi (op : ApiOp) (s : LazerState) :
    Except PyError HttpRequest × List HttpRequest :=
  match sessionRequest op with
  | .error e => (.error e, [])
  | .ok r =>
    match s.session with
    | none => (.error .serverStateError, [])
    | some _ => (.ok r, [r])

/-! ## Claim theorems -/

/-- C10: serialization round-trip.  For every instance of the three
serializable record types, `from_dict (to_dict x)` reconstructs `x`
exactly: the key transformation of `to_dict` (underscores dropped) is
inverted by `from_dict`'s lowercased, underscore-free field matching,
and the `mods` field of `OsuDifficultyAttributes` also round-trips —
not through an acronym conversion, but because both conversion guards
in `types.py` (`type(v) is list[OsuMod]` in `_factory`,
`field.type is list[OsuMod]` in `from_dict`) are identity comparisons
that are always `False` in CPython, so the enum list passes through
both directions verbatim. -/
theorem serialization_round_trip :
    (∀ h : HitStatistics, HitStatistics.from_dict h.to_dict = some h) ∧
    (∀ x : OsuDifficultyAttributes,
      OsuDifficultyAttributes.from_dict x.to_dict = some x) ∧
    (∀ p : OsuPerformanceAttributes,
      OsuPerformanceAttributes.from_dict p.to_dict = some p) :=
  ⟨fun _ => rfl, fun _ => rfl, fun _ => rfl⟩

/-- C2: `calculate_difficulty` requires exactly one of
`beatmap_id`/`beatmap`.  When both are `None` or both are given it raises
`ValueError` with no request issued on the session; with only
`beatmap_id` it issues `GET /api/difficulty/{id}`; with only `beatmap`
it issues `POST /api/difficulty`. -/
theorem calculate_difficulty_exactly_one :
    ∀ (bid : Option Int) (bm : Option Nat) (mods : Option (List OsuMod)),
      ((bid = none ∧ bm = none) ∨ (bid.isSome ∧ bm.isSome) →
        calculate_difficulty_request bid bm mods = .error .valueError ∧
        diffIssuedRequests bid bm mods = []) ∧
      (∀ id, bid = some id → bm = none →
        calculate_difficulty_request bid bm mods =
          .ok ⟨.GET, "/api/difficulty/" ++ toString id, modsParams mods, []⟩) ∧
      (bid = none → ∀ b, bm = some b →
        calculate_difficulty_request bid bm mods =
          .ok ⟨.POST, "/api/difficulty", modsParams mods, ["beatmap"]⟩) := by
  intro bid bm mods
  cases bid <;> cases bm <;>
    simp [calculate_difficulty_request, diffIssuedRequests]

/-- Witness for C2 at concrete inputs: neither argument, only
`beatmap_id = 42`, and only a beatmap stream. -/
theorem calculate_difficulty_exactly_one_witness :
    (calculate_difficulty_request none none none = .error .valueError ∧
      diffIssuedRequests none none none = []) ∧
    calculate_difficulty_request (some 42) none none =
      .ok ⟨.GET, "/api/difficulty/" ++ toString (42 : Int), modsParams none, []⟩ ∧
    calculate_difficulty_request none (some 0) none =
      .ok ⟨.POST, "/api/difficulty", modsParams none, ["beatmap"]⟩ := by
  refine ⟨(calculate_difficulty_exactly_one none none none).1 (Or.inl ⟨rfl, rfl⟩),
    (calculate_difficulty_exactly_one (some 42) none none).2.1 42 rfl rfl,
    (calculate_difficulty_exactly_one none (some 0) none).2.2 rfl 0 rfl⟩

/-- C1 (counterexample): an over-specified keyword combination —
`beatmap_id` and `beatmap` both supplied, `hit_stats` and `replay` both
supplied, matching none of the five decision-table rows — does not raise
`ValueError`: the dispatch resolves it by precedence and issues
`GET /api/performance/1` on the session. -/
theorem calculate_performance_overspecified_counterexample :
    (overspecArgs.beatmap_id.isSome ∧ overspecArgs.beatmap.isSome ∧
      overspecArgs.hit_stats.isSome ∧ overspecArgs.replay.isSome) ∧
    calculate_performance_request overspecArgs =
      .ok ⟨.GET, "/api/performance/1", testHitStats.to_dict, []⟩ ∧
    perfIssuedRequests overspecArgs ≠ [] := by
  refine ⟨by decide, rfl, ?_⟩
  intro h
  exact List.noConfusion h

/-- C1 (amended): `calculate_performance` raises `ValueError`, before any
request is issued on the session, exactly when the dispatch chain falls
through — `beatmap_id` given but neither `hit_stats` nor `replay`;
`beatmap` (without `beatmap_id`) given but neither `hit_stats` nor
`replay`; or neither beatmap source given and not both `difficulty` and
`hit_stats` present.  Over-specified combinations do not raise: they are
resolved by precedence (`beatmap_id` over `beatmap` over
`difficulty`+`hit_stats`, and `hit_stats` over `replay`). -/
theorem calculate_performance_valueError_iff :
    ∀ a : PerfArgs,
      (calculate_performance_request a = .error .valueError ↔
        perfFallThrough a) ∧
      (calculate_performance_request a = .error .valueError →
        perfIssuedRequests a = []) := by
  intro a
  obtain ⟨bid, bm, mods, diff, hs, rp⟩ := a
  constructor
  · cases bid <;> cases bm <;> cases diff <;> cases hs <;> cases rp <;>
      simp [calculate_performance_request, perfFallThrough]
  · intro h
    simp [perfIssuedRequests, h]

/-- Witness for C1 (amended) at the all-`None` call: the chain falls
through, `ValueError` is raised, and no request reaches the session. -/
theorem calculate_performance_valueError_iff_witness :
    calculate_performance_request ⟨none, none, none, none, none, none⟩ =
      .error .valueError ∧
    perfIssuedRequests ⟨none, none, none, none, none, none⟩ = [] := by
  have h := calculate_performance_valueError_iff
    ⟨none, none, none, none, none, none⟩
  have hf : perfFallThrough ⟨none, none, none, none, none, none⟩ :=
    Or.inr (Or.inr ⟨rfl, rfl, by decide⟩)
  exact ⟨h.1.mpr hf, h.2 (h.1.mpr hf)⟩

/-- C3: calling `start()` on a façade that is already running raises
`ServerStateError` and changes nothing: the state (including the original
process handle and session) is returned untouched and no action — in
particular no spawn — is performed.  `LazerBase._start` checks `running`
before its first mutation, so the raise precedes every side effect. -/
theorem start_when_running_raises_state_error :
    ∀ (env : StartEnv) (s : LazerState), s.running = true →
      Lazer.start env s = (⟨.error .serverStateError, s⟩, []) := by
  intro env s h
  simp [Lazer.start, h]

/-- Witness for C3: a running façade with process handle 3 and a live
session; a second `start` raises and leaves both untouched. -/
theorem start_when_running_raises_state_error_witness :
    Lazer.start ⟨.ok 4, []⟩ ⟨7, true, some 3, some "http://localhost:7"⟩ =
      (⟨.error .serverStateError,
        ⟨7, true, some 3, some "http://localhost:7"⟩⟩, []) :=
  start_when_running_raises_state_error ⟨.ok 4, []⟩
    ⟨7, true, some 3, some "http://localhost:7"⟩ rfl

/-- C4: `stop()` is idempotent.  On a façade that is not running it
returns normally, performs no termination/signal/resource-release action
and leaves the state unchanged; and after any `stop()` that returned
normally, a second `stop()` is exactly such a no-op, so `stop();stop()`
has the same observable effect on the façade state as a single
`stop()`. -/
theorem stop_idempotent_noop :
    ∀ (s : LazerState) (st1 st2 : Int),
      (s.running = false → Lazer.stop st1 s = (⟨.ok, s⟩, [])) ∧
      ((Lazer.stop st1 s).1.outcome = .ok →
        Lazer.stop st2 (Lazer.stop st1 s).1.state =
          (⟨.ok, (Lazer.stop st1 s).1.state⟩, [])) := by
  intro s st1 st2
  constructor
  · intro h; simp [Lazer.stop, h]
  · intro h
    cases hr : s.running with
    | false => simp [Lazer.stop, hr]
    | true =>
      cases hp : s.process with
      | none => simp [Lazer.stop, hr, hp] at h
      | some pid =>
        cases hs : s.session with
        | none => simp [Lazer.stop, hr, hp, hs] at h
        | some u => simp [Lazer.stop, hr, hp, hs]

/-- Witness for C4: `stop` on a never-started façade is a pure no-op, and
a second `stop` after a successful teardown of a running façade is also a
no-op. -/
theorem stop_idempotent_noop_witness :
    Lazer.stop 0 (initState 7) = (⟨.ok, initState 7⟩, []) ∧
    Lazer.stop 1 ((Lazer.stop 0 ⟨7, true, some 3, some "u"⟩).1.state) =
      (⟨.ok, (Lazer.stop 0 ⟨7, true, some 3, some "u"⟩).1.state⟩, []) :=
  ⟨(stop_idempotent_noop (initState 7) 0 0).1 rfl,
    (stop_idempotent_noop ⟨7, true, some 3, some "u"⟩ 0 1).2 (by decide)⟩

/-- C5 (counterexample): the `processHandle`-iff-`running` invariant does
not hold at every caller-observable point.  If `subprocess.Popen` raises
inside `start()` on a fresh façade, the caller observes `running = True`
with no process handle: `_start` has already set the flag and the raise
propagates before any handle is assigned. -/
theorem start_spawn_failure_invariant_counterexample :
    ¬ processInvariant (Lazer.start ⟨.fail, []⟩ (initState 7)).1.state := by
  intro h
  simp [Lazer.start, initState, processInvariant] at h

/-- C5 (amended): the invariant `processHandle` non-null iff `running`
holds in the initial state and is preserved by every `start()`/`stop()`
call that completes normally; it can be violated only by calls that
terminate by raising (such as a `start()` whose spawn fails). -/
theorem process_invariant_on_completed_transitions :
    ∀ s : LazerState, ReachableOk s → processInvariant s := by
  intro s h
  induction h with
  | init port => rfl
  | start env s0 hre hok ih =>
    cases hr : s0.running with
    | true => simp [Lazer.start, hr] at hok
    | false =>
      cases hsp : env.spawn with
      | fail => simp [Lazer.start, hr, hsp] at hok
      | ok pid =>
        cases hps : pollStatus env.probe with
        | none => simp [Lazer.start, hr, hsp, hps] at hok
        | some p => simp [Lazer.start, hr, hsp, hps, processInvariant]
  | stop status s0 hre hok ih =>
    cases hr : s0.running with
    | false => simpa [Lazer.stop, hr, processInvariant] using ih
    | true =>
      cases hp : s0.process with
      | none => simp [Lazer.stop, hr, hp] at hok
      | some pid =>
        cases hs : s0.session with
        | none => simp [Lazer.stop, hr, hp, hs] at hok
        | some u => simp [Lazer.stop, hr, hp, hs, processInvariant]

/-- Witness for C5 (amended): the invariant at the freshly constructed
façade, which is reachable by zero completed transitions. -/
theorem process_invariant_on_completed_transitions_witness :
    processInvariant (initState 7) :=
  process_invariant_on_completed_transitions (initState 7) (ReachableOk.init 7)

/-- C6 (counterexample): the executable locator is not a
platform/architecture table with an `UnsupportedPlatformError` failure
case.  `get_vibrio_path` takes no architecture argument, cannot fail, and
returns the identical suffix-free path `PACKAGE_DIR/lib/Vibrio` for
`Darwin` (where the claimed table prescribes an `osx-x64` suffix), for
`Linux`, and for a platform (`Haiku`) for which no table entry could
exist. -/
theorem get_vibrio_path_ignores_architecture_counterexample :
    get_vibrio_path "Darwin" = ["PACKAGE_DIR", "lib", "Vibrio"] ∧
    get_vibrio_path "Linux" = get_vibrio_path "Darwin" ∧
    get_vibrio_path "Haiku" = ["PACKAGE_DIR", "lib", "Vibrio"] :=
  ⟨rfl, rfl, rfl⟩

/-- C6 (amended): the locator consumes only the platform name and is
total: platform `Windows` resolves to `PACKAGE_DIR/lib/Vibrio.exe` and
every other platform resolves to `PACKAGE_DIR/lib/Vibrio`; no
`UnsupportedPlatformError` exists (a missing file is detected separately,
as `FileNotFoundError`, by the façade constructor). -/
theorem get_vibrio_path_platform_only :
    ∀ p : String,
      (get_vibrio_path p = ["PACKAGE_DIR", "lib", "Vibrio.exe"] ↔
        p = "Windows") ∧
      (get_vibrio_path p = ["PACKAGE_DIR", "lib", "Vibrio"] ↔
        p ≠ "Windows") := by
  intro p
  by_cases h : p = "Windows"
  · subst h
    exact ⟨by simp [get_vibrio_path], by simp [get_vibrio_path]⟩
  · simp [get_vibrio_path, h]

/-- Witness for C6 (amended) at the platforms `Windows` and `Darwin`. -/
theorem get_vibrio_path_platform_only_witness :
    get_vibrio_path "Windows" = ["PACKAGE_DIR", "lib", "Vibrio.exe"] ∧
    get_vibrio_path "Darwin" ≠ ["PACKAGE_DIR", "lib", "Vibrio.exe"] :=
  ⟨(get_vibrio_path_platform_only "Windows").1.mpr rfl,
    fun h => absurd ((get_vibrio_path_platform_only "Darwin").1.mp h)
      (by decide)⟩

/-- C7: the readiness probe declares the server ready only on HTTP 200.
If the loop breaks at attempt `n`, that attempt observed status 200, no
earlier attempt did (connection/IO errors and non-200 statuses are
absorbed and re-polled), and the loop slept the fixed
`STARTUP_DELAY` (50 ms) once per attempt; and if no probe outcome is a
200 the loop never exits, however long the sequence — there is no upper
bound on the number of attempts. -/
theorem readiness_probe_ready_only_on_200 :
    ∀ rs : List ProbeResponse,
      (∀ n t, pollStatus rs = some (n, t) →
        rs.get? n = some (ProbeResponse.status 200) ∧
        (∀ i, i < n → rs.get? i ≠ some (ProbeResponse.status 200)) ∧
        t = STARTUP_DELAY_MS * (n + 1)) ∧
      ((∀ r ∈ rs, r ≠ ProbeResponse.status 200) → pollStatus rs = none) := by
  intro rs
  induction rs with
  | nil =>
    exact ⟨fun n t h => by simp [pollStatus] at h, fun _ => rfl⟩
  | cons r rest ih =>
    constructor
    · intro n t h
      by_cases h200 : r = ProbeResponse.status 200
      · subst h200
        simp [pollStatus] at h
        obtain ⟨hn, ht⟩ := h
        subst hn
        subst ht
        refine ⟨rfl, fun i hi => absurd hi (Nat.not_lt_zero i), by simp⟩
      · rw [pollStatus, if_neg h200] at h
        cases hp : pollStatus rest with
        | none => rw [hp] at h; exact absurd h (by simp)
        | some p =>
          rw [hp] at h
          simp only [Option.some.injEq, Prod.mk.injEq] at h
          obtain ⟨hn, ht⟩ := h
          obtain ⟨hg, hlt, htt⟩ := ih.1 p.1 p.2 (by rw [hp])
          subst hn
          subst ht
          refine ⟨by simpa using hg, ?_, ?_⟩
          · intro i hi
            cases i with
            | zero => simpa using h200
            | succ j =>
              have hj : j < p.1 := Nat.lt_of_succ_lt_succ hi
              simpa using hlt j hj
          · rw [htt]; ring
    · intro hall
      rw [pollStatus, if_neg (hall r (List.mem_cons_self r rest))]
      rw [ih.2 (fun x hx => hall x (List.mem_cons_of_mem r hx))]

/-- Witness for C7: a probe run that sees a connection error, then a 503,
then a 200: the loop breaks at the third attempt having slept 150 ms, the
earlier attempts were not treated as ready. -/
theorem readiness_probe_ready_only_on_200_witness :
    pollStatus [ProbeResponse.connError, ProbeResponse.status 503,
        ProbeResponse.status 200] = some (2, 150) ∧
    [ProbeResponse.connError, ProbeResponse.status 503,
        ProbeResponse.status 200].get? 2 = some (ProbeResponse.status 200) ∧
    [ProbeResponse.connError, ProbeResponse.status 503,
        ProbeResponse.status 200].get? 0 ≠ some (ProbeResponse.status 200) ∧
    [ProbeResponse.connError, ProbeResponse.status 503,
        ProbeResponse.status 200].get? 1 ≠ some (ProbeResponse.status 200) ∧
    (150 : Nat) = STARTUP_DELAY_MS * (2 + 1) := by
  have h := (readiness_probe_ready_only_on_200
    [ProbeResponse.connError, ProbeResponse.status 503,
      ProbeResponse.status 200]).1 2 150 rfl
  exact ⟨rfl, h.1, h.2.1 0 (by decide), h.2.1 1 (by decide), h.2.2⟩

/-- C8: `stop()` from a running state tolerates every exit status of the
child.  Whatever status the wait observes, `stop()` returns normally and
completes the full teardown — process handle cleared, session closed and
cleared, `running` set to `False` — and a status that is neither 0 nor
the supervisor's `SIGTERM` is reported only through the error log. -/
theorem stop_tolerates_any_exit_status :
    ∀ (s : LazerState) (pid : Nat) (url : String) (status : Int),
      s.running = true → s.process = some pid → s.session = some url →
      (Lazer.stop status s).1 =
        ⟨.ok, { s with running := false, process := none, session := none }⟩ ∧
      Action.closeSession ∈ (Lazer.stop status s).2 ∧
      (Action.logUncleanShutdown ∈ (Lazer.stop status s).2 ↔
        (status ≠ 0 ∧ status ≠ SIGTERM)) := by
  intro s pid url status hr hp hs
  simp only [Lazer.stop, hr, if_true, hp, hs]
  split <;> rename_i hst
  · simp_all
  · simp_all
    exact hst

/-- Witness for C8: teardown of a running façade whose child exits with
the abnormal status 9 still returns normally, releases everything, and
logs the unclean shutdown. -/
theorem stop_tolerates_any_exit_status_witness :
    (Lazer.stop 9 ⟨7, true, some 3, some "u"⟩).1 = ⟨.ok, ⟨7, false, none, none⟩⟩ ∧
    Action.closeSession ∈ (Lazer.stop 9 ⟨7, true, some 3, some "u"⟩).2 ∧
    (Action.logUncleanShutdown ∈ (Lazer.stop 9 ⟨7, true, some 3, some "u"⟩).2 ↔
      ((9 : Int) ≠ 0 ∧ (9 : Int) ≠ SIGTERM)) :=
  stop_tolerates_any_exit_status ⟨7, true, some 3, some "u"⟩ 3 "u" 9 rfl rfl rfl

/-- In every reachable state — through completed, raising, or hanging
lifecycle calls — a façade that is not running holds no session. -/
theorem reachable_not_running_no_session :
    ∀ s : LazerState, Reachable s → s.running = false → s.session = none := by
  intro s h
  induction h with
  | init port => intro _; rfl
  | start env s0 hre ih =>
    cases hr : s0.running with
    | true => simp [Lazer.start, hr]
    | false =>
      cases hsp : env.spawn with
      | fail => simp [Lazer.start, hr, hsp]
      | ok pid =>
        cases hps : pollStatus env.probe with
        | none => simp [Lazer.start, hr, hsp, hps]
        | some p => simp [Lazer.start, hr, hsp, hps]
  | stop status s0 hre ih =>
    cases hr : s0.running with
    | false => simpa [Lazer.stop, hr] using ih
    | true =>
      cases hp : s0.process with
      | none => simp [Lazer.stop, hr, hp]
      | some pid =>
        cases hs : s0.session with
        | none => simp [Lazer.stop, hr, hp, hs]
        | some u => simp [Lazer.stop, hr, hp, hs]

/-- C9 (counterexample): not every API operation on a non-running façade
raises `ServerStateError`.  On a never-started façade,
`calculate_difficulty()` with neither `beatmap_id` nor `beatmap` raises
`ValueError` — argument validation fires before the session property —
though still before any HTTP request. -/
theorem stopped_facade_invalid_args_counterexample :
    Lazer.invokeApi (ApiOp.calculateDifficulty none none none) (initState 7) =
      (.error .valueError, []) ∧
    PyError.valueError ≠ PyError.serverStateError :=
  ⟨rfl, by decide⟩

/-- C9 (amended): the session is never used while `running` is `False`.
In every reachable non-running state, invoking any API operation puts no
request on the session, and every operation whose arguments pass
validation raises `ServerStateError` (operations with invalid argument
combinations raise `ValueError` instead, likewise before any request). -/
theorem no_session_use_when_not_running :
    ∀ (s : LazerState) (op : ApiOp), Reachable s → s.running = false →
      (Lazer.invokeApi op s).2 = [] ∧
      (∀ r, sessionRequest op = .ok r →
        (Lazer.invokeApi op s).1 = .error .serverStateError) := by
  intro s op hre hr
  have hs : s.session = none := reachable_not_running_no_session s hre hr
  cases hsr : sessionRequest op with
  | error e => simp [Lazer.invokeApi, hsr]
  | ok r => simp [Lazer.invokeApi, hsr, hs]

/-- Witness for C9 (amended): `clear_cache` on a never-started façade
issues nothing and raises `ServerStateError`. -/
theorem no_session_use_when_not_running_witness :
    (Lazer.invokeApi ApiOp.clearCache (initState 7)).2 = [] ∧
    (Lazer.invokeApi ApiOp.clearCache (initState 7)).1 =
      .error .serverStateError := by
  have h := no_session_use_when_not_running (initState 7) ApiOp.clearCache
    (Reachable.init 7) rfl
  exact ⟨h.1, h.2 ⟨.DELETE, "/api/beatmaps/cache", [], []⟩ rfl⟩

end Vibrio
